import Mathlib

/-!
Verification of the no-repeat random name selector plugin (src/main.py).

The two components with logic are embedded here:

* the roster loader read_names_from_file, modelled over an explicit
  file-system outcome type FS (file missing with the creating write
  succeeding or failing, file present and readable with given lines,
  file present but the read raising);
* the no-repeat selector, a FloatingWindow record with fields names,
  shuffled_names and current_index, whose operations reset_shuffle and
  get_next_name are parameterised by a shuffle oracle sigma giving the
  outcome of each successive random.shuffle call.  The admissibility
  condition, that every oracle output is a permutation of the roster,
  is carried as a hypothesis where needed.

get_next_name returns Option: none models a Python IndexError (it is
proved unreachable under the selector invariant).
-/

/-- Whitespace in the sense of the Python str.strip default. -/
def pyWhitespace (c : Char) : Bool :=
  c = ' ' || c = '\t' || c = '\n' || c = '\r' || c = '\x0b' || c = '\x0c'

/-- Python name.strip(): drop whitespace from both ends of the string. -/
def pyStrip (s : String) : String :=
  String.mk (((s.data.dropWhile pyWhitespace).reverse.dropWhile pyWhitespace).reverse)

/-- The built-in default roster written when the roster file is missing
(main.py line 19). -/
def default_names : List String := ["小明", "李华", "张三", "李四", "王五", "赵六"]

/-- The in-memory fallback roster returned when reading the roster file
raises (main.py line 30). -/
def fallback_names : List String := ["小明", "李华", "张三", "李四"]

/-- Outcome of the file system at the roster path: the file is missing
(and the creating write would succeed or raise), or it is present and
the read yields the given lines, or it is present but the read raises. -/
inductive FS where
  | missing (writeOk : Bool)
  | present (readResult : Option (List String))
deriving DecidableEq, Repr

/-- Embedding of read_names_from_file (main.py lines 16-30).  The first
component is the returned list, or an error when an uncaught exception
propagates to the caller; the second component is the file content
written, as lines, when a write happens.  The write of the default
roster (lines 20-21) sits outside the try block, so its failure
propagates; the read (lines 25-26) sits inside, so its failure is
replaced by fallback_names.  A successful read is stripped and
filtered by the comprehension of line 27. -/
def read_names_from_file : FS → Except Unit (List String) × Option (List String)
  | FS.missing true => (Except.ok default_names, some default_names)
  | FS.missing false => (Except.error (), none)
  | FS.present (some lines) =>
      (Except.ok ((lines.filter (fun name => pyStrip name ≠ "")).map pyStrip), none)
  | FS.present none => (Except.ok fallback_names, none)

/-- Restatement of the spec sentence for a successful read, used for the
refinement claim C6: split into lines, strip whitespace, drop empty
lines, preserve order. -/
def specProcessedLines (lines : List String) : List String :=
  (lines.map pyStrip).filter (fun s => s ≠ "")

/-- Selector state of the FloatingWindow class (main.py lines 348-350):
the roster, the shuffled queue and the cursor. -/
structure FloatingWindow where
  names : List String
  shuffled_names : List String
  current_index : Nat
deriving DecidableEq, Repr

/-- The sentinel string returned on an empty roster (main.py line 463). -/
def emptySentinel : String := "名单为空"

/-- Embedding of FloatingWindow.reset_shuffle (main.py lines 388-392).
The argument shuffled stands for the outcome of random.shuffle applied
to a copy of the roster; theorems constrain it to be a permutation of
the roster. -/
def reset_shuffle (shuffled : List String) (w : FloatingWindow) : FloatingWindow :=
  { w with shuffled_names := shuffled, current_index := 0 }

/-- Embedding of FloatingWindow.load_names (main.py lines 381-386)
restricted to the selector state: assign the list read from the roster
file to names, then reset_shuffle. -/
def load_names (ns shuffled : List String) (w : FloatingWindow) : FloatingWindow :=
  reset_shuffle shuffled { w with names := ns }

/-- Embedding of FloatingWindow.get_next_name (main.py lines 460-471),
parameterised by the shuffle oracle σ and the count k of shuffles
performed so far (so σ k is the outcome of the next random.shuffle).
Returns the name together with the new state and shuffle count; none
models an IndexError at line 469. -/
def get_next_name (σ : Nat → List String) (w : FloatingWindow) (k : Nat) :
    Option (String × FloatingWindow × Nat) :=
  if w.shuffled_names.isEmpty then
    some (emptySentinel, w, k)
  else
    let wk : FloatingWindow × Nat :=
      if w.shuffled_names.length ≤ w.current_index then
        (reset_shuffle (σ k) w, k + 1)
      else
        (w, k)
    match wk.1.shuffled_names[wk.1.current_index]? with
    | some name => some (name, { wk.1 with current_index := wk.1.current_index + 1 }, wk.2)
    | none => none

/-- n consecutive get_next_name calls: the list of returned names with
the final state and shuffle count, or none if any call raises. -/
def run (σ : Nat → List String) : Nat → FloatingWindow → Nat →
    Option (List String × FloatingWindow × Nat)
  | 0, w, k => some ([], w, k)
  | n + 1, w, k =>
    match get_next_name σ w k with
    | none => none
    | some (a, w', k') =>
      match run σ n w' k' with
      | none => none
      | some (as, w'', k'') => some (a :: as, w'', k'')

/-- The cursor-range part of the selector invariant. -/
def cursorInv (w : FloatingWindow) : Prop :=
  w.current_index ≤ w.shuffled_names.length

instance : DecidablePred cursorInv := fun w =>
  inferInstanceAs (Decidable (w.current_index ≤ w.shuffled_names.length))

/-- Behaviour of get_next_name when the queue is empty: the sentinel is
returned and nothing changes. -/
theorem get_next_name_empty (σ : Nat → List String) (w : FloatingWindow) (k : Nat)
    (h : w.shuffled_names = []) :
    get_next_name σ w k = some (emptySentinel, w, k) := by
  simp [get_next_name, h]

/-- Behaviour of get_next_name mid-cycle: when the cursor is strictly
below the queue length, the queue entry at the cursor is returned and
the cursor advances; no reshuffle happens. -/
theorem get_next_name_mid (σ : Nat → List String) (w : FloatingWindow) (k : Nat)
    (h : w.current_index < w.shuffled_names.length) :
    get_next_name σ w k =
      some (w.shuffled_names.get ⟨w.current_index, h⟩,
        { w with current_index := w.current_index + 1 }, k) := by
  have hne : ¬ w.shuffled_names.isEmpty := by
    simp only [List.isEmpty_iff]
    intro h0
    rw [h0] at h
    simp at h
  have hlt : ¬ w.shuffled_names.length ≤ w.current_index := Nat.not_le.mpr h
  simp [get_next_name, hne, hlt, List.getElem?_eq_getElem h]

/-- Behaviour of get_next_name at exhaustion: when the queue is
non-empty and the cursor has reached its length, the queue is replaced
by the next oracle output, the cursor is reset and the first entry of
the fresh queue is consumed. -/
theorem get_next_name_exhausted (σ : Nat → List String) (w : FloatingWindow) (k : Nat)
    (hne : w.shuffled_names ≠ []) (hci : w.shuffled_names.length ≤ w.current_index)
    (hσ : σ k ≠ []) :
    get_next_name σ w k =
      some ((σ k).head hσ,
        { w with shuffled_names := σ k, current_index := 1 }, k + 1) := by
  have hne' : ¬ w.shuffled_names.isEmpty := by simpa [List.isEmpty_iff] using hne
  have h0 : 0 < (σ k).length := List.length_pos.mpr hσ
  simp [get_next_name, hne', hci, reset_shuffle, List.getElem?_eq_getElem h0,
    List.getElem_zero, List.head?_eq_head]

/-- Unfolding equation for run at a successor count. -/
theorem run_succ (σ : Nat → List String) (n : Nat) (w : FloatingWindow) (k : Nat) :
    run σ (n + 1) w k =
      match get_next_name σ w k with
      | none => none
      | some (a, w', k') =>
        match run σ n w' k' with
        | none => none
        | some (as, w'', k'') => some (a :: as, w'', k'') := rfl

/-- Running out one cycle: starting from a non-empty queue with n
entries left before the cursor reaches the end, the next n calls
return exactly the remaining queue entries in order, with no oracle
consumption; further calls continue from the exhausted state. -/
theorem run_cycle (σ : Nat → List String) (j : Nat) (n : Nat) :
    ∀ (w : FloatingWindow) (k : Nat),
      w.shuffled_names ≠ [] →
      w.current_index + n = w.shuffled_names.length →
      run σ (n + j) w k =
        (run σ j { w with current_index := w.shuffled_names.length } k).map
          (fun r => (w.shuffled_names.drop w.current_index ++ r.1, r.2)) := by
  induction n with
  | zero =>
    intro w k hne hlen
    have hci : w.current_index = w.shuffled_names.length := by omega
    have hw : { w with current_index := w.shuffled_names.length } = w := by
      rw [← hci]
    cases hr : run σ j w k with
    | none => simp [Nat.zero_add, hw, hr]
    | some r => simp [Nat.zero_add, hw, hr, hci, List.drop_length]
  | succ n ih =>
    intro w k hne hlen
    have hci : w.current_index < w.shuffled_names.length := by omega
    have hn : n + 1 + j = (n + j) + 1 := by omega
    rw [hn, run_succ, get_next_name_mid σ w k hci]
    have hih := ih { w with current_index := w.current_index + 1 } k hne
      (by change w.current_index + 1 + n = w.shuffled_names.length; omega)
    dsimp only
    rw [hih]
    cases hr : run σ j { w with current_index := w.shuffled_names.length } k with
    | none => simp
    | some r =>
      obtain ⟨as, st⟩ := r
      dsimp only [Option.map]
      rw [List.drop_eq_getElem_cons hci]
      rfl

/-- C4: when read_names_from_file is called with a path at which no file
exists, it writes the built-in default 6-name list to that path and
returns exactly that 6-name list. -/
theorem read_names_missing_writes_default :
    read_names_from_file (FS.missing true) = (Except.ok default_names, some default_names) ∧
    default_names.length = 6 :=
  ⟨rfl, rfl⟩

/-- C5 counterexample: an I/O failure while writing the default roster
for a missing file propagates to the caller, because that write sits
outside the try block; so not every read/write failure is replaced by
the fallback list. -/
theorem read_names_write_failure_raises :
    (read_names_from_file (FS.missing false)).1 = Except.error () :=
  rfl

/-- C5 amended: a failure of the read of an existing roster file never
propagates; the read-failure path returns the built-in 4-name fallback
list. -/
theorem read_names_read_failure_fallback :
    (∀ r, ∃ l, (read_names_from_file (FS.present r)).1 = Except.ok l) ∧
    (read_names_from_file (FS.present none)).1 = Except.ok fallback_names := by
  refine ⟨?_, rfl⟩
  intro r
  cases r with
  | none => exact ⟨fallback_names, rfl⟩
  | some lines => exact ⟨_, rfl⟩

/-- C6: on a successful read, read_names_from_file returns the lines
with surrounding whitespace stripped and the lines blank after
stripping dropped, in their original order: it agrees with the
spec-side description specProcessedLines. -/
theorem read_names_success_strips_and_filters (lines : List String) :
    (read_names_from_file (FS.present (some lines))).1 =
      Except.ok (specProcessedLines lines) := by
  simp [read_names_from_file, specProcessedLines, List.filter_map, Function.comp_def]

/-- C7 counterexample: a file of blank lines reads successfully and
yields the empty list, so read_names_from_file does not always return
a non-empty sequence. -/
theorem read_names_blank_file_returns_empty :
    (read_names_from_file (FS.present (some ["  ", ""]))).1 = Except.ok ([] : List String) :=
  rfl

/-- C7 amended: read_names_from_file returns a non-empty list on the
missing-file path (when the creating write succeeds) and on the
read-failure path; on a successful read the result is non-empty
whenever some line is non-blank after stripping. -/
theorem read_names_nonempty_unless_blank :
    (read_names_from_file (FS.missing true)).1 = Except.ok default_names ∧
    default_names ≠ [] ∧
    (read_names_from_file (FS.present none)).1 = Except.ok fallback_names ∧
    fallback_names ≠ [] ∧
    ∀ lines : List String, (∃ n ∈ lines, pyStrip n ≠ "") →
      ∃ l, (read_names_from_file (FS.present (some lines))).1 = Except.ok l ∧ l ≠ [] := by
  refine ⟨rfl, by decide, rfl, by decide, ?_⟩
  rintro lines ⟨n, hn, hns⟩
  refine ⟨_, rfl, ?_⟩
  intro hnil
  rw [List.map_eq_nil_iff] at hnil
  have hmem : n ∈ lines.filter (fun name => decide (pyStrip name ≠ "")) :=
    List.mem_filter.mpr ⟨hn, by simpa using hns⟩
  rw [hnil] at hmem
  simp at hmem

/-- Witness for the amended C7 theorem at a concrete one-line file. -/
theorem read_names_nonempty_unless_blank_witness :
    ∃ l, (read_names_from_file (FS.present (some ["a"]))).1 = Except.ok l ∧ l ≠ [] :=
  read_names_nonempty_unless_blank.2.2.2.2 ["a"] ⟨"a", by decide, by decide⟩

/-- C1: immediately after reset_shuffle with a permutation p of the
roster, a run of length(roster) consecutive get_next_name calls
succeeds, consumes no further shuffle, and returns a list that is a
permutation of the roster (each roster name exactly once; no
duplicates when the roster has none). -/
theorem cycle_returns_each_name_once (σ : Nat → List String) (w : FloatingWindow)
    (k : Nat) (p : List String) (hp : p.Perm w.names) (hne : w.names ≠ []) :
    ∃ outs,
      run σ w.names.length (reset_shuffle p w) k =
        some (outs, { w with shuffled_names := p, current_index := p.length }, k) ∧
      outs.Perm w.names ∧ outs.length = w.names.length ∧
      (w.names.Nodup → outs.Nodup) := by
  have hpne : p ≠ [] := by
    intro h0
    apply hne
    have h1 := hp.symm
    rw [h0] at h1
    exact h1.eq_nil
  have hcyc := run_cycle σ 0 w.names.length (reset_shuffle p w) k
    (by simpa [reset_shuffle] using hpne)
    (by simp [reset_shuffle, hp.length_eq])
  rw [Nat.add_zero] at hcyc
  refine ⟨p, ?_, hp, hp.length_eq, fun hnd => hp.nodup_iff.mpr hnd⟩
  rw [hcyc]
  simp [reset_shuffle, run]

/-- C2: starting immediately after reset_shuffle with a permutation p
of a non-empty roster, length(roster) + 1 consecutive get_next_name
calls succeed, consume exactly one further shuffle (on the last call),
and that last call returns the first entry of the fresh permutation,
which is a roster name rather than a failure or sentinel. -/
theorem exhaustion_triggers_single_reshuffle (σ : Nat → List String) (w : FloatingWindow)
    (k : Nat) (p : List String) (hσ : ∀ j, (σ j).Perm w.names)
    (hp : p.Perm w.names) (hne : w.names ≠ []) :
    ∃ h : σ k ≠ [],
      run σ (w.names.length + 1) (reset_shuffle p w) k =
        some (p ++ [(σ k).head h],
          { w with shuffled_names := σ k, current_index := 1 }, k + 1) ∧
      (σ k).head h ∈ w.names := by
  have hpne : p ≠ [] := by
    intro h0
    apply hne
    have h1 := hp.symm
    rw [h0] at h1
    exact h1.eq_nil
  have hσk : σ k ≠ [] := by
    intro h0
    apply hne
    have h1 := (hσ k).symm
    rw [h0] at h1
    exact h1.eq_nil
  have hcyc := run_cycle σ 1 w.names.length (reset_shuffle p w) k
    (by simpa [reset_shuffle] using hpne)
    (by simp [reset_shuffle, hp.length_eq])
  refine ⟨hσk, ?_, (hσ k).mem_iff.mp ((σ k).head_mem hσk)⟩
  rw [hcyc]
  have hstep := get_next_name_exhausted σ
    { reset_shuffle p w with current_index := (reset_shuffle p w).shuffled_names.length } k
    (by simpa [reset_shuffle] using hpne) (by simp [reset_shuffle]) hσk
  rw [run_succ]
  rw [hstep]
  simp [reset_shuffle, run]

/-- C3: with an empty roster (and the queue a permutation of it, as in
every reachable state), any number of get_next_name calls each return
the empty-roster sentinel, never raise, and leave the state unchanged. -/
theorem empty_roster_always_sentinel (σ : Nat → List String) (n : Nat)
    (w : FloatingWindow) (k : Nat) (hroster : w.names = [])
    (hinv : w.shuffled_names.Perm w.names) :
    run σ n w k = some (List.replicate n emptySentinel, w, k) := by
  have hsh : w.shuffled_names = [] := by
    rw [hroster] at hinv
    exact hinv.eq_nil
  induction n with
  | zero => rfl
  | succ m ihm =>
    rw [run_succ, get_next_name_empty σ w k hsh]
    dsimp only
    rw [ihm, List.replicate_succ]

/-- Behaviour of get_next_name at exhaustion when the oracle output is
empty: the indexing after the reshuffle fails (an IndexError; this
state is unreachable when the oracle produces roster permutations and
the roster is non-empty). -/
theorem get_next_name_exhausted_none (σ : Nat → List String) (w : FloatingWindow) (k : Nat)
    (hne : w.shuffled_names ≠ []) (hci : w.shuffled_names.length ≤ w.current_index)
    (hσ : σ k = []) :
    get_next_name σ w k = none := by
  have hne' : ¬ w.shuffled_names.isEmpty := by simpa [List.isEmpty_iff] using hne
  simp [get_next_name, hne', hci, reset_shuffle, hσ]

/-- Any successful get_next_name call keeps the cursor within the
bounds of the (possibly reshuffled) queue. -/
theorem get_next_name_cursorInv (σ : Nat → List String) (w : FloatingWindow) (k : Nat)
    (a : String) (w' : FloatingWindow) (k' : Nat)
    (hw : cursorInv w) (h : get_next_name σ w k = some (a, w', k')) : cursorInv w' := by
  by_cases hsh : w.shuffled_names = []
  · rw [get_next_name_empty σ w k hsh] at h
    simp only [Option.some.injEq, Prod.mk.injEq] at h
    obtain ⟨-, rfl, -⟩ := h
    exact hw
  · by_cases hci : w.shuffled_names.length ≤ w.current_index
    · by_cases hσ : σ k = []
      · rw [get_next_name_exhausted_none σ w k hsh hci hσ] at h
        exact absurd h (by simp)
      · rw [get_next_name_exhausted σ w k hsh hci hσ] at h
        simp only [Option.some.injEq, Prod.mk.injEq] at h
        obtain ⟨-, rfl, -⟩ := h
        show 1 ≤ (σ k).length
        exact List.length_pos.mpr hσ
    · push_neg at hci
      rw [get_next_name_mid σ w k hci] at h
      simp only [Option.some.injEq, Prod.mk.injEq] at h
      obtain ⟨-, rfl, -⟩ := h
      show w.current_index + 1 ≤ w.shuffled_names.length
      omega

/-- Any successful get_next_name call leaves the roster field
untouched. -/
theorem get_next_name_names_eq (σ : Nat → List String) (w : FloatingWindow) (k : Nat)
    (a : String) (w' : FloatingWindow) (k' : Nat)
    (h : get_next_name σ w k = some (a, w', k')) : w'.names = w.names := by
  by_cases hsh : w.shuffled_names = []
  · rw [get_next_name_empty σ w k hsh] at h
    simp only [Option.some.injEq, Prod.mk.injEq] at h
    obtain ⟨-, rfl, -⟩ := h
    rfl
  · by_cases hci : w.shuffled_names.length ≤ w.current_index
    · by_cases hσ : σ k = []
      · rw [get_next_name_exhausted_none σ w k hsh hci hσ] at h
        exact absurd h (by simp)
      · rw [get_next_name_exhausted σ w k hsh hci hσ] at h
        simp only [Option.some.injEq, Prod.mk.injEq] at h
        obtain ⟨-, rfl, -⟩ := h
        rfl
    · push_neg at hci
      rw [get_next_name_mid σ w k hci] at h
      simp only [Option.some.injEq, Prod.mk.injEq] at h
      obtain ⟨-, rfl, -⟩ := h
      rfl

/-- C8 counterexample: in the reachable empty-roster state the cursor
equals the queue length, yet the next get_next_name call performs no
reshuffle (the shuffle count stays 0) and consumes nothing: it returns
the sentinel with the state unchanged. -/
theorem cursor_at_length_no_reshuffle_on_empty :
    (FloatingWindow.mk [] [] 0).current_index =
        (FloatingWindow.mk [] [] 0).shuffled_names.length ∧
    get_next_name (fun _ => []) (FloatingWindow.mk [] [] 0) 0 =
      some (emptySentinel, FloatingWindow.mk [] [] 0, 0) :=
  ⟨rfl, rfl⟩

/-- C8 amended: the cursor invariant 0 ≤ current_index ≤
length(shuffled_names) holds after load_names and after reset_shuffle,
and is preserved by every successful get_next_name call; and whenever
the queue is non-empty and the cursor equals its length, the next call
installs the fresh oracle permutation, resets the cursor to 0, and
consumes its first entry. -/
theorem selector_cursor_invariant :
    (∀ (ns p : List String) (w : FloatingWindow), cursorInv (load_names ns p w)) ∧
    (∀ (p : List String) (w : FloatingWindow), cursorInv (reset_shuffle p w)) ∧
    (∀ (σ : Nat → List String) (w : FloatingWindow) (k : Nat) (a : String)
        (w' : FloatingWindow) (k' : Nat),
      cursorInv w → get_next_name σ w k = some (a, w', k') → cursorInv w') ∧
    (∀ (σ : Nat → List String) (w : FloatingWindow) (k : Nat),
      w.shuffled_names ≠ [] →
      w.current_index = w.shuffled_names.length →
      (σ k).Perm w.names →
      w.shuffled_names.Perm w.names →
      ∃ h : σ k ≠ [],
        get_next_name σ w k =
          some ((σ k).head h, { w with shuffled_names := σ k, current_index := 1 }, k + 1)) := by
  refine ⟨?_, ?_, ?_, ?_⟩
  · intro ns p w
    show (0 : Nat) ≤ p.length
    exact Nat.zero_le _
  · intro p w
    show (0 : Nat) ≤ p.length
    exact Nat.zero_le _
  · intro σ w k a w' k' hw h
    exact get_next_name_cursorInv σ w k a w' k' hw h
  · intro σ w k hne hci hσ hinv
    have hσne : σ k ≠ [] := by
      intro h0
      apply hne
      have h1 := hσ.symm
      rw [h0] at h1
      rw [h1.eq_nil] at hinv
      exact hinv.eq_nil
    exact ⟨hσne, get_next_name_exhausted σ w k hne (Nat.le_of_eq hci.symm) hσne⟩

/-- C9: reset_shuffle installs a permutation of the roster as the
queue, resets the cursor to 0 and leaves the roster untouched; and no
successful get_next_name call ever modifies the roster. -/
theorem reset_shuffle_contract_and_roster_immutable :
    (∀ (p : List String) (w : FloatingWindow), p.Perm w.names →
      (reset_shuffle p w).shuffled_names.Perm w.names ∧
      (reset_shuffle p w).current_index = 0 ∧
      (reset_shuffle p w).names = w.names) ∧
    (∀ (σ : Nat → List String) (w : FloatingWindow) (k : Nat) (a : String)
        (w' : FloatingWindow) (k' : Nat),
      get_next_name σ w k = some (a, w', k') → w'.names = w.names) := by
  constructor
  · intro p w hp
    exact ⟨hp, rfl, rfl⟩
  · intro σ w k a w' k' h
    exact get_next_name_names_eq σ w k a w' k' h

/-- C10: on an empty roster (with the queue a permutation of it, as in
every reachable state) get_next_name returns the sentinel and the
returned state is literally the input state: names, shuffled_names and
current_index are all unchanged, and the shuffle count is unchanged. -/
theorem empty_roster_branch_atomic (σ : Nat → List String) (w : FloatingWindow) (k : Nat)
    (hroster : w.names = []) (hinv : w.shuffled_names.Perm w.names) :
    get_next_name σ w k = some (emptySentinel, w, k) := by
  apply get_next_name_empty
  rw [hroster] at hinv
  exact hinv.eq_nil

/-- Witness for C1 at a concrete two-name roster. -/
theorem cycle_returns_each_name_once_witness :
    ∃ outs,
      run (fun _ => ["a", "b"]) (FloatingWindow.mk ["a", "b"] [] 7).names.length
          (reset_shuffle ["b", "a"] (FloatingWindow.mk ["a", "b"] [] 7)) 4 =
        some (outs,
          { FloatingWindow.mk ["a", "b"] [] 7 with
              shuffled_names := ["b", "a"],
              current_index := (["b", "a"] : List String).length }, 4) ∧
      outs.Perm (FloatingWindow.mk ["a", "b"] [] 7).names ∧
      outs.length = (FloatingWindow.mk ["a", "b"] [] 7).names.length ∧
      ((FloatingWindow.mk ["a", "b"] [] 7).names.Nodup → outs.Nodup) :=
  cycle_returns_each_name_once (fun _ => ["a", "b"]) (FloatingWindow.mk ["a", "b"] [] 7) 4
    ["b", "a"] (by decide) (by decide)

/-- Witness for C2 at a concrete two-name roster. -/
theorem exhaustion_triggers_single_reshuffle_witness :
    ∃ h : (["b", "a"] : List String) ≠ [],
      run (fun _ => ["b", "a"]) ((FloatingWindow.mk ["a", "b"] [] 7).names.length + 1)
          (reset_shuffle ["a", "b"] (FloatingWindow.mk ["a", "b"] [] 7)) 0 =
        some (["a", "b"] ++ [(["b", "a"] : List String).head h],
          { FloatingWindow.mk ["a", "b"] [] 7 with
              shuffled_names := ["b", "a"], current_index := 1 }, 1) ∧
      (["b", "a"] : List String).head h ∈ (FloatingWindow.mk ["a", "b"] [] 7).names :=
  have hperm : (["b", "a"] : List String).Perm ["a", "b"] := by decide
  exhaustion_triggers_single_reshuffle (fun _ => ["b", "a"])
    (FloatingWindow.mk ["a", "b"] [] 7) 0 ["a", "b"] (fun _ => hperm) (by decide) (by decide)

/-- Witness for C3 at a concrete empty roster and two calls. -/
theorem empty_roster_always_sentinel_witness :
    run (fun _ => ["x"]) 2 (FloatingWindow.mk [] [] 0) 5 =
      some (List.replicate 2 emptySentinel, FloatingWindow.mk [] [] 0, 5) :=
  empty_roster_always_sentinel (fun _ => ["x"]) 2 (FloatingWindow.mk [] [] 0) 5 rfl (by decide)

/-- Witness for the amended C8 theorem: one concrete preservation step
and one concrete exhaustion step. -/
theorem selector_cursor_invariant_witness :
    cursorInv (FloatingWindow.mk ["a"] ["a"] 1) ∧
    (∃ h : (["b", "a"] : List String) ≠ [],
      get_next_name (fun _ => ["b", "a"]) (FloatingWindow.mk ["a", "b"] ["a", "b"] 2) 0 =
        some ((["b", "a"] : List String).head h,
          { FloatingWindow.mk ["a", "b"] ["a", "b"] 2 with
              shuffled_names := ["b", "a"], current_index := 1 }, 1)) :=
  ⟨selector_cursor_invariant.2.2.1 (fun _ => ["a"]) (FloatingWindow.mk ["a"] ["a"] 0) 0 "a"
      (FloatingWindow.mk ["a"] ["a"] 1) 0 (by decide) (by decide),
    selector_cursor_invariant.2.2.2 (fun _ => ["b", "a"])
      (FloatingWindow.mk ["a", "b"] ["a", "b"] 2) 0 (by decide) rfl (by decide) (by decide)⟩

/-- Witness for C9 at a concrete two-name roster. -/
theorem reset_shuffle_contract_witness :
    (reset_shuffle ["b", "a"] (FloatingWindow.mk ["a", "b"] [] 9)).shuffled_names.Perm
        (FloatingWindow.mk ["a", "b"] [] 9).names ∧
    (reset_shuffle ["b", "a"] (FloatingWindow.mk ["a", "b"] [] 9)).current_index = 0 ∧
    (reset_shuffle ["b", "a"] (FloatingWindow.mk ["a", "b"] [] 9)).names =
      (FloatingWindow.mk ["a", "b"] [] 9).names :=
  reset_shuffle_contract_and_roster_immutable.1 ["b", "a"] (FloatingWindow.mk ["a", "b"] [] 9)
    (by decide)

/-- Witness for C10 at a concrete empty-roster state. -/
theorem empty_roster_branch_atomic_witness :
    get_next_name (fun _ => []) (FloatingWindow.mk [] [] 3) 4 =
      some (emptySentinel, FloatingWindow.mk [] [] 3, 4) :=
  empty_roster_branch_atomic (fun _ => []) (FloatingWindow.mk [] [] 3) 4 rfl (by decide)
